import Mathlib

/-!
Shallow embedding of `src/main.rs` of the `myniri` compositor helper.

The program parses one of three subcommands; each handler opens a socket to
the compositor, queries the focused window (and, for the snap command, the
focused output), and sends zero or more actions, each as a blocking
request/response round trip.

We model the body of each handler (after the socket connection has been
established) as a pure function from an environment — the replies the
compositor would give to each request — to the ordered list of actions sent
on the socket together with the command's outcome: `Except.ok ()` for a
successful exit, `Except.error m` for a failure with diagnostic `m`.

`f64` arithmetic in the source is idealised as exact rational arithmetic
over `ℚ`; the integer fields of the output's logical geometry, which the
source casts to `f64` before use, are likewise modelled as rationals.
Window ids (`u64`) and scrolling-layout positions (`usize` pairs) are
modelled as `Nat`.
-/

deriving instance DecidableEq for Except

namespace Myniri

/-- `niri_ipc::PositionChange`: an absolute coordinate or a relative delta. -/
inductive PositionChange where
  | SetFixed : ℚ → PositionChange
  | AdjustFixed : ℚ → PositionChange
deriving DecidableEq

/-- The `niri_ipc::Action` variants the program constructs itself, plus
`other`, standing for every remaining `niri_ipc::Action` variant that the
caller could supply as the fallback subcommand of `floating-snap-or`. -/
inductive Action where
  | MoveFloatingWindow (id : Option Nat) (x : PositionChange) (y : PositionChange)
  | MoveWindowUp
  | FocusColumnLeft
  | ConsumeWindowIntoColumn
  | FocusWindow (id : Nat)
  | other (tag : String)
deriving DecidableEq

/-- `true` exactly on the move-floating-window variant. -/
def Action.isMoveFloatingWindow : Action → Bool
  | .MoveFloatingWindow _ _ _ => true
  | _ => false

/-- The `id` field of a move-floating-window action, `none` on every other
variant. -/
def Action.moveFloatingId : Action → Option (Option Nat)
  | .MoveFloatingWindow id _ _ => some id
  | _ => none

/-- The layout descriptor of a window: `tile_size` is the `(width, height)`
pair used for the edge-snap arithmetic, and `pos_in_scrolling_layout` is the
optional 1-based `(workspace, column)` position in the scrolling layout. -/
structure WindowLayout where
  tile_size : ℚ × ℚ
  pos_in_scrolling_layout : Option (Nat × Nat)
deriving DecidableEq

/-- The fields of `niri_ipc::Window` the program reads. -/
structure Window where
  id : Nat
  is_floating : Bool
  layout : WindowLayout
deriving DecidableEq

/-- The logical geometry rectangle of an output. -/
structure LogicalGeometry where
  x : ℚ
  y : ℚ
  width : ℚ
  height : ℚ
deriving DecidableEq

/-- The fields of `niri_ipc::Output` the program reads: the logical geometry
is absent when the compositor cannot report it. -/
structure Output where
  logical : Option LogicalGeometry
deriving DecidableEq

/-- The compositor directions accepted by `floating-snap-or`. -/
inductive Direction where
  | Left
  | Down
  | Up
  | Right
deriving DecidableEq

/-- The environment of one invocation: the reply the compositor would give
to the focused-window query, to the focused-output query, and to the `i`-th
action request sent on the socket (counting from 0), plus the result of
spawning the external delegate process.  `Except.error m` models a reply
whose payload is the protocol error string `m` (or a failed spawn). -/
structure Env where
  focusedWindow : Except String (Option Window)
  focusedOutput : Except String (Option Output)
  actionReply : Nat → Except String Unit
  spawnResult : Except String Unit

/-- `const LEFT_MARGIN: f64 = 0.;` -/
def LEFT_MARGIN : ℚ := 0

/-- `const BOTTOM_MARGIN: f64 = 48.;` -/
def BOTTOM_MARGIN : ℚ := 48

/-- `const TOP_MARGIN: f64 = 0.;` -/
def TOP_MARGIN : ℚ := 0

/-- `const RIGHT_MARGIN: f64 = 0.;` -/
def RIGHT_MARGIN : ℚ := 0

/-- The move action built by the `FloatingSnapOr` handler for a floating
window (main.rs lines 73-103): first the direction is mapped to an optional
x offset and an optional y offset relative to the output origin, then each
axis becomes `SetFixed (origin + offset)` when the offset is present and
`AdjustFixed 0` otherwise; a missing logical geometry contributes
`unwrap_or_default`, i.e. `0`, for each of its fields. -/
def snapAction (direction : Direction) (window : Window) (output : Output) : Action :=
  let xy : Option ℚ × Option ℚ :=
    match direction with
    | .Left => (some LEFT_MARGIN, none)
    | .Down =>
        (none,
         some ((output.logical.map fun l => l.height).getD 0
                 - BOTTOM_MARGIN - window.layout.tile_size.2))
    | .Up => (none, some TOP_MARGIN)
    | .Right =>
        (some ((output.logical.map fun l => l.width).getD 0
                 - RIGHT_MARGIN - window.layout.tile_size.1),
         none)
  Action.MoveFloatingWindow (some window.id)
    (((xy.1.map fun x => (output.logical.map fun l => l.x).getD 0 + x).map
        PositionChange.SetFixed).getD (PositionChange.AdjustFixed 0))
    (((xy.2.map fun y => (output.logical.map fun l => l.y).getD 0 + y).map
        PositionChange.SetFixed).getD (PositionChange.AdjustFixed 0))

/-- The `Command::FloatingSnapOr` handler (main.rs lines 43-106).  Returns
the list of actions sent and the command's outcome.  A window query whose
payload is `None` (or not a focused-window response) hits the `let ... else`
and bails with "failed to receive response"; a non-floating window gets the
fallback action verbatim; a floating window gets the computed move action,
with the focused-output query in between.  Every reply error is propagated
by `?`. -/
def floatingSnapOr (direction : Direction) (or_action : Action) (env : Env) :
    List Action × Except String Unit :=
  match env.focusedWindow with
  | .error e => ([], .error e)
  | .ok none => ([], .error "failed to receive response")
  | .ok (some window) =>
      if !window.is_floating then
        ([or_action], env.actionReply 0)
      else
        match env.focusedOutput with
        | .error e => ([], .error e)
        | .ok none => ([], .error "failed to receive response")
        | .ok (some output) =>
            ([snapAction direction window output], env.actionReply 0)

/-- The `Command::ToggleFollowMode` handler (main.rs lines 107-124).  The
first component lists the external delegate invocations attempted, as
(program, arguments) pairs. -/
def toggleFollowMode (env : Env) : List (String × List String) × Except String Unit :=
  match env.focusedWindow with
  | .error e => ([], .error e)
  | .ok none => ([], .error "failed to receive response")
  | .ok (some window) =>
      if window.is_floating then
        ([("nirius", ["toggle-follow-mode"])], env.spawnResult)
      else
        ([], .ok ())

/-- Send a list of actions in order, starting at action index `i`: each send
consumes one reply; the first `Except.error` reply stops the sequence (the
action that provoked it was sent) and becomes the outcome, mirroring the
`?` after `map_err` on every `socket.send` of the consume path.  The `let _
=` in the source discards only the successful response payload. -/
def sendSeq (reply : Nat → Except String Unit) : Nat → List Action → List Action × Except String Unit
  | _, [] => ([], .ok ())
  | i, act :: rest =>
      match reply i with
      | .error e => ([act], .error e)
      | .ok _ =>
          let r := sendSeq reply (i + 1) rest
          (act :: r.1, r.2)

/-- The plan of the `Command::ConsumeIntoLeft` handler once the focused
window is known (main.rs lines 135-161): fail on a floating window; when a
scrolling-layout position `(in_ws, in_col)` is present, fail when `in_ws ==
1` and otherwise prepend `in_col - 1` move-up actions when `in_col != 1`;
always end with focus-column-left, consume-window-into-column and a
re-focus of the original window id.  (For `in_col = 0` the source's `in_col
- 1` underflows `usize`; the spec's data-model invariant makes column
indices 1-based, so that case is outside the modelled domain.) -/
def consumeActions (window : Window) : Except String (List Action) :=
  if window.is_floating then
    .error "cannot consume a floating window"
  else
    match window.layout.pos_in_scrolling_layout with
    | some (in_ws, in_col) =>
        if in_ws = 1 then
          .error "cannot consume a window in the first column into left"
        else
          .ok ((if in_col ≠ 1 then List.replicate (in_col - 1) Action.MoveWindowUp else [])
                ++ [Action.FocusColumnLeft, Action.ConsumeWindowIntoColumn,
                    Action.FocusWindow window.id])
    | none =>
        .ok [Action.FocusColumnLeft, Action.ConsumeWindowIntoColumn,
             Action.FocusWindow window.id]

/-- The `Command::ConsumeIntoLeft` handler (main.rs lines 125-162): query
the focused window, validate, then send the planned actions sequentially,
stopping at (and propagating) the first reply error. -/
def consumeIntoLeft (env : Env) : List Action × Except String Unit :=
  match env.focusedWindow with
  | .error e => ([], .error e)
  | .ok none => ([], .error "failed to receive response")
  | .ok (some window) =>
      match consumeActions window with
      | .error e => ([], .error e)
      | .ok acts => sendSeq env.actionReply 0 acts

/-- When every reply is a success, `sendSeq` sends the whole list and
succeeds. -/
theorem sendSeq_all_ok (reply : Nat → Except String Unit)
    (hok : ∀ k, reply k = .ok ()) :
    ∀ (acts : List Action) (i : Nat), sendSeq reply i acts = (acts, Except.ok ()) := by
  intro acts
  induction acts with
  | nil => intro i; rfl
  | cons a rest ih =>
      intro i
      simp [sendSeq, hok i, ih (i + 1)]

/-- When the replies up to index `i + j` succeed and the reply at `i + j`
is an error, `sendSeq` starting at `i` on a list of more than `j` actions
propagates that error as its outcome. -/
theorem sendSeq_error_at (reply : Nat → Except String Unit) :
    ∀ (acts : List Action) (i j : Nat) (e : String),
      j < acts.length →
      (∀ k, k < j → reply (i + k) = .ok ()) →
      reply (i + j) = .error e →
      (sendSeq reply i acts).2 = .error e := by
  intro acts
  induction acts with
  | nil =>
      intro i j e hj _ _
      exact absurd hj (by simp)
  | cons a rest ih =>
      intro i j e hj hok he
      cases j with
      | zero =>
          rw [Nat.add_zero] at he
          simp [sendSeq, he]
      | succ j =>
          have h0 : reply i = .ok () := by simpa using hok 0 (Nat.succ_pos j)
          have hrest : (sendSeq reply (i + 1) rest).2 = .error e := by
            refine ih (i + 1) j e (by simpa using hj) ?_ ?_
            · intro k hk
              have h := hok (k + 1) (Nat.succ_lt_succ hk)
              have harith : i + (k + 1) = i + 1 + k := by omega
              rwa [harith] at h
            · have harith : i + (j + 1) = i + 1 + j := by omega
              rwa [harith] at he
          simp [sendSeq, h0, hrest]

/-! ### Concrete fixtures used by witnesses and counterexamples -/

/-- A reply function that acknowledges every action. -/
def okReply : Nat → Except String Unit := fun _ => .ok ()

/-- A concrete floating window: id 7, tile size `(10, 20)`.  Floating
windows carry no scrolling-layout position. -/
def floatWin : Window :=
  { id := 7, is_floating := true,
    layout := { tile_size := (10, 20), pos_in_scrolling_layout := none } }

/-- A concrete tiled (non-floating) window with the given scrolling-layout
position: id 7, tile size `(800, 600)`. -/
def tiledWin (pos : Option (Nat × Nat)) : Window :=
  { id := 7, is_floating := false,
    layout := { tile_size := (800, 600), pos_in_scrolling_layout := pos } }

/-- An output with logical geometry `(x, y, width, height) = (5, 7, 800, 600)`. -/
def outGeom : Output :=
  { logical := some { x := 5, y := 7, width := 800, height := 600 } }

/-- An output with no reported logical geometry. -/
def outNoGeom : Output := { logical := none }

/-- Build an environment from the two query replies and the action replies;
the delegate spawn succeeds. -/
def mkEnv (w : Except String (Option Window)) (o : Except String (Option Output))
    (r : Nat → Except String Unit) : Env :=
  { focusedWindow := w, focusedOutput := o, actionReply := r, spawnResult := .ok () }

/-- An environment whose focused window is tiled with no scrolling-layout
position and whose compositor rejects the very first action with "boom". -/
def errEnv : Env :=
  mkEnv (.ok (some (tiledWin none))) (.ok (some outGeom)) (fun _ => .error "boom")

/-! ### C1 -/

/-- C1: for every floating focused window with tile size `(w, h)` and every
focused output with logical geometry `(ox, oy, ow, oh)`, the
floating-snap-or handler sends exactly one move-floating-window action
whose pinned axis is the absolute position Left → `x = ox`, Right → `x = ox
+ ow - w`, Up → `y = oy`, Down → `y = oy + oh - 48 - h`, and whose other
axis is a relative adjust-by-zero, not an absolute set. -/
theorem floatingSnapOr_snaps_to_edge
    (direction : Direction) (or_action : Action) (env : Env)
    (window : Window) (output : Output) (l : LogicalGeometry)
    (hw : env.focusedWindow = .ok (some window))
    (hfl : window.is_floating = true)
    (ho : env.focusedOutput = .ok (some output))
    (hl : output.logical = some l) :
    (floatingSnapOr direction or_action env).1 =
      [Action.MoveFloatingWindow (some window.id)
        (match direction with
          | .Left => .SetFixed l.x
          | .Right => .SetFixed (l.x + l.width - window.layout.tile_size.1)
          | .Up => .AdjustFixed 0
          | .Down => .AdjustFixed 0)
        (match direction with
          | .Up => .SetFixed l.y
          | .Down => .SetFixed (l.y + l.height - 48 - window.layout.tile_size.2)
          | .Left => .AdjustFixed 0
          | .Right => .AdjustFixed 0)] := by
  cases direction <;>
    simp [floatingSnapOr, hw, hfl, ho, snapAction, hl, LEFT_MARGIN, TOP_MARGIN,
      RIGHT_MARGIN, BOTTOM_MARGIN] <;>
    ring_nf

/-- C1 witness: snapping the floating window of tile size `(10, 20)` down on
the output of geometry `(5, 7, 800, 600)` sends one move action with
`x` adjusted by zero and `y` set to `7 + 600 - 48 - 20 = 539`. -/
theorem floatingSnapOr_snaps_to_edge_witness :
    (floatingSnapOr Direction.Down (Action.other "fallback")
        (mkEnv (.ok (some floatWin)) (.ok (some outGeom)) okReply)).1 =
      [Action.MoveFloatingWindow (some 7) (PositionChange.AdjustFixed 0)
        (PositionChange.SetFixed 539)] := by
  have h := floatingSnapOr_snaps_to_edge Direction.Down (Action.other "fallback")
    (mkEnv (.ok (some floatWin)) (.ok (some outGeom)) okReply) floatWin outGeom
    { x := 5, y := 7, width := 800, height := 600 } rfl rfl rfl rfl
  rw [h]
  norm_num [floatWin]

/-! ### C4 -/

/-- A caller-supplied fallback action that is itself a move-floating-window
action (`niri_ipc::Action` lets the fallback subcommand be any action). -/
def mfwFallback : Action :=
  Action.MoveFloatingWindow none (PositionChange.AdjustFixed 0) (PositionChange.AdjustFixed 0)

/-- C4 counterexample: with a non-floating focused window and the fallback
action `move-floating-window` itself, the handler does send a
move-floating-window action (the fallback verbatim), so "never sends a
move-floating-window action" fails as stated. -/
theorem floatingSnapOr_fallback_move_cex :
    (tiledWin none).is_floating = false ∧
    ((floatingSnapOr Direction.Left mfwFallback
        (mkEnv (.ok (some (tiledWin none))) (.ok (some outGeom)) okReply)).1.any
      Action.isMoveFloatingWindow) = true := by
  exact ⟨rfl, rfl⟩

/-- C4 amended: for every non-floating focused window, the handler sends
exactly the caller-supplied fallback action and nothing else; in
particular it never sends a move-floating-window action of its own — one
is sent only when it is the fallback itself. -/
theorem floatingSnapOr_fallback_exact
    (direction : Direction) (or_action : Action) (env : Env) (window : Window)
    (hw : env.focusedWindow = .ok (some window))
    (hfl : window.is_floating = false) :
    (floatingSnapOr direction or_action env).1 = [or_action] ∧
    ∀ a ∈ (floatingSnapOr direction or_action env).1,
      a.isMoveFloatingWindow = true → a = or_action := by
  have h1 : (floatingSnapOr direction or_action env).1 = [or_action] := by
    simp [floatingSnapOr, hw, hfl]
  refine ⟨h1, ?_⟩
  rw [h1]
  intro a ha _
  simpa using ha

/-- C4 amended witness: a tiled window with an ordinary fallback action
gets exactly that fallback. -/
theorem floatingSnapOr_fallback_exact_witness :
    (floatingSnapOr Direction.Up (Action.other "fullscreen-window")
        (mkEnv (.ok (some (tiledWin none))) (.ok (some outGeom)) okReply)).1 =
      [Action.other "fullscreen-window"] :=
  (floatingSnapOr_fallback_exact Direction.Up (Action.other "fullscreen-window")
    (mkEnv (.ok (some (tiledWin none))) (.ok (some outGeom)) okReply)
    (tiledWin none) rfl rfl).1

/-! ### C8 -/

/-- C8 counterexample: when the focused-window query returns no window, the
handler fails with "failed to receive response", which is not the message
"no focused window" the claim states. -/
theorem floatingSnapOr_no_window_message_cex :
    (floatingSnapOr Direction.Left (Action.other "fallback")
        (mkEnv (.ok none) (.ok (some outGeom)) okReply)).2 =
      Except.error "failed to receive response" ∧
    (floatingSnapOr Direction.Left (Action.other "fallback")
        (mkEnv (.ok none) (.ok (some outGeom)) okReply)).2 ≠
      Except.error "no focused window" := by
  exact ⟨rfl, by decide⟩

/-- C8 amended: when the focused-window query returns no window, the
floating-snap-or handler sends nothing and fails with the diagnostic
"failed to receive response". -/
theorem floatingSnapOr_no_window_fails
    (direction : Direction) (or_action : Action) (env : Env)
    (hw : env.focusedWindow = .ok none) :
    floatingSnapOr direction or_action env =
      ([], Except.error "failed to receive response") := by
  simp [floatingSnapOr, hw]

/-- C8 amended witness. -/
theorem floatingSnapOr_no_window_fails_witness :
    floatingSnapOr Direction.Left (Action.other "fallback")
        (mkEnv (.ok none) (.ok (some outGeom)) okReply) =
      ([], Except.error "failed to receive response") :=
  floatingSnapOr_no_window_fails Direction.Left (Action.other "fallback")
    (mkEnv (.ok none) (.ok (some outGeom)) okReply) rfl

/-! ### C9 -/

/-- C9: for every floating focused window whose focused output reports no
logical geometry, the snap handler does not fail (given the compositor
acknowledges the move) and sends the move action computed as if the
geometry were the zero-origin, zero-size rectangle. -/
theorem floatingSnapOr_missing_geometry_fallback
    (direction : Direction) (or_action : Action) (env : Env)
    (window : Window) (output : Output)
    (hw : env.focusedWindow = .ok (some window))
    (hfl : window.is_floating = true)
    (ho : env.focusedOutput = .ok (some output))
    (hl : output.logical = none)
    (hr : env.actionReply 0 = .ok ()) :
    floatingSnapOr direction or_action env =
      ([snapAction direction window
          { logical := some { x := 0, y := 0, width := 0, height := 0 } }],
       Except.ok ()) := by
  have hgeom : snapAction direction window output =
      snapAction direction window
        { logical := some { x := 0, y := 0, width := 0, height := 0 } } := by
    cases direction <;> simp [snapAction, hl]
  simp [floatingSnapOr, hw, hfl, ho, hr, hgeom]

/-- C9 witness: snapping the floating window of tile size `(10, 20)` right
on an output with no logical geometry succeeds and pins `x` to
`0 + 0 - 0 - 10 = -10`. -/
theorem floatingSnapOr_missing_geometry_fallback_witness :
    floatingSnapOr Direction.Right (Action.other "fallback")
        (mkEnv (.ok (some floatWin)) (.ok (some outNoGeom)) okReply) =
      ([Action.MoveFloatingWindow (some 7) (PositionChange.SetFixed (-10))
          (PositionChange.AdjustFixed 0)], Except.ok ()) := by
  have h := floatingSnapOr_missing_geometry_fallback Direction.Right
    (Action.other "fallback")
    (mkEnv (.ok (some floatWin)) (.ok (some outNoGeom)) okReply) floatWin outNoGeom
    rfl rfl rfl rfl rfl
  rw [h]
  norm_num [snapAction, floatWin, RIGHT_MARGIN]

/-! ### C10 -/

/-- C10: for every floating focused window (the branch in which the handler
constructs its move action), every action the floating-snap-or handler
sends is a move-floating-window action whose `id` field is explicitly set
to the queried focused window's id, never left unspecified. -/
theorem floatingSnapOr_move_targets_focused_id
    (direction : Direction) (or_action : Action) (env : Env) (window : Window)
    (hw : env.focusedWindow = .ok (some window))
    (hfl : window.is_floating = true) :
    ∀ a ∈ (floatingSnapOr direction or_action env).1,
      a.moveFloatingId = some (some window.id) := by
  intro a ha
  unfold floatingSnapOr at ha
  rw [hw] at ha
  simp only [hfl, Bool.not_true, Bool.false_eq_true, if_false] at ha
  cases hout : env.focusedOutput with
  | error e => rw [hout] at ha; simp at ha
  | ok o =>
      cases o with
      | none => rw [hout] at ha; simp at ha
      | some output =>
          rw [hout] at ha
          simp only [List.mem_singleton] at ha
          subst ha
          simp [snapAction, Action.moveFloatingId]

/-- C10 witness: the move action sent for the concrete floating window of
id 7 carries `id = some 7`. -/
theorem floatingSnapOr_move_targets_focused_id_witness :
    Action.moveFloatingId
      (Action.MoveFloatingWindow (some 7) (PositionChange.AdjustFixed 0)
        (PositionChange.SetFixed 7)) = some (some 7) :=
  floatingSnapOr_move_targets_focused_id Direction.Up (Action.other "fallback")
    (mkEnv (.ok (some floatWin)) (.ok (some outGeom)) okReply) floatWin rfl rfl
    (Action.MoveFloatingWindow (some 7) (PositionChange.AdjustFixed 0)
      (PositionChange.SetFixed 7))
    (by simp [floatingSnapOr, mkEnv, snapAction, floatWin, outGeom, TOP_MARGIN])

/-! ### C2 -/

/-- C2 counterexample: with a tiled focused window (no scrolling position)
and a compositor that rejects the first of the three final actions with
"boom", the consume-into-left handler propagates the error — the response
is not discarded and the command does not exit successfully. -/
theorem consumeIntoLeft_error_not_swallowed_cex :
    (consumeIntoLeft errEnv).1 = [Action.FocusColumnLeft] ∧
    (consumeIntoLeft errEnv).2 = Except.error "boom" ∧
    (consumeIntoLeft errEnv).2 ≠ Except.ok () := by
  exact ⟨rfl, rfl, by decide⟩

/-- C2 amended: in the consume-into-left path, a compositor error returned
for any sent action — in particular any of the three final ones — is
propagated as the command's failure (only the successful response payload
is discarded by `let _ =`), so the command does not exit successfully. -/
theorem consumeIntoLeft_propagates_action_errors
    (env : Env) (window : Window) (acts : List Action) (j : Nat) (e : String)
    (hw : env.focusedWindow = .ok (some window))
    (hplan : consumeActions window = .ok acts)
    (hj : j < acts.length)
    (hok : ∀ k, k < j → env.actionReply k = .ok ())
    (he : env.actionReply j = .error e) :
    (consumeIntoLeft env).2 = Except.error e := by
  have hrun : consumeIntoLeft env = sendSeq env.actionReply 0 acts := by
    simp [consumeIntoLeft, hw, hplan]
  rw [hrun]
  refine sendSeq_error_at env.actionReply acts 0 j e hj ?_ ?_
  · intro k hk
    simpa using hok k hk
  · simpa using he

/-- C2 amended witness: the error "boom" on the focus-column-left action is
the outcome of the command. -/
theorem consumeIntoLeft_propagates_action_errors_witness :
    (consumeIntoLeft errEnv).2 = Except.error "boom" :=
  consumeIntoLeft_propagates_action_errors errEnv (tiledWin none)
    [Action.FocusColumnLeft, Action.ConsumeWindowIntoColumn, Action.FocusWindow 7]
    0 "boom" rfl rfl (by decide)
    (fun k hk => absurd hk (Nat.not_lt_zero k)) rfl

/-! ### C3 -/

/-- C3: for every non-floating focused window at scrolling-layout position
`(ws, col)` with `ws ≠ 1` (and `col ≥ 1`, per the data model's 1-based
column indices, which also keeps the source's `in_col - 1` on `usize` from
underflowing), when every reply succeeds the consume-into-left handler
sends exactly `col - 1` move-window-up actions (zero when `col = 1`),
followed by focus-column-left, consume-window-into-column and
focus-window with the original window's id, in exactly that order. -/
theorem consumeIntoLeft_action_order
    (env : Env) (window : Window) (ws col : Nat)
    (hw : env.focusedWindow = .ok (some window))
    (hfl : window.is_floating = false)
    (hpos : window.layout.pos_in_scrolling_layout = some (ws, col))
    (hws : ws ≠ 1) (hcol : 1 ≤ col)
    (hok : ∀ k, env.actionReply k = .ok ()) :
    consumeIntoLeft env =
      (List.replicate (col - 1) Action.MoveWindowUp ++
        [Action.FocusColumnLeft, Action.ConsumeWindowIntoColumn,
         Action.FocusWindow window.id],
       Except.ok ()) := by
  have hmoves : (if col ≠ 1 then List.replicate (col - 1) Action.MoveWindowUp else []) =
      List.replicate (col - 1) Action.MoveWindowUp := by
    by_cases h : col = 1
    · subst h; simp
    · simp [h]
  have hplan : consumeActions window =
      .ok (List.replicate (col - 1) Action.MoveWindowUp ++
        [Action.FocusColumnLeft, Action.ConsumeWindowIntoColumn,
         Action.FocusWindow window.id]) := by
    rw [consumeActions, hfl, hpos]
    simp [hws, hmoves]
  simp [consumeIntoLeft, hw, hplan, sendSeq_all_ok env.actionReply hok]

/-- C3 witness: at position `(workspace, column) = (2, 3)` exactly two
move-up actions precede the three final actions, in order. -/
theorem consumeIntoLeft_action_order_witness :
    consumeIntoLeft
        (mkEnv (.ok (some (tiledWin (some (2, 3))))) (.ok (some outGeom)) okReply) =
      ([Action.MoveWindowUp, Action.MoveWindowUp, Action.FocusColumnLeft,
        Action.ConsumeWindowIntoColumn, Action.FocusWindow 7], Except.ok ()) := by
  have h := consumeIntoLeft_action_order
    (mkEnv (.ok (some (tiledWin (some (2, 3))))) (.ok (some outGeom)) okReply)
    (tiledWin (some (2, 3))) 2 3 rfl rfl rfl (by decide) (by decide) (fun k => rfl)
  simpa using h

/-! ### C5 -/

/-- C5: for every non-floating focused window whose scrolling-layout
position has workspace index 1 (any column), consume-into-left sends no
action at all and fails with "cannot consume a window in the first column
into left". -/
theorem consumeIntoLeft_first_workspace_fails
    (env : Env) (window : Window) (col : Nat)
    (hw : env.focusedWindow = .ok (some window))
    (hfl : window.is_floating = false)
    (hpos : window.layout.pos_in_scrolling_layout = some (1, col)) :
    consumeIntoLeft env =
      ([], Except.error "cannot consume a window in the first column into left") := by
  have hplan : consumeActions window =
      .error "cannot consume a window in the first column into left" := by
    rw [consumeActions, hfl, hpos]
    simp
  simp [consumeIntoLeft, hw, hplan]

/-- C5 witness: at position `(1, 5)` the command fails with the first-column
message and the sent list is empty. -/
theorem consumeIntoLeft_first_workspace_fails_witness :
    consumeIntoLeft
        (mkEnv (.ok (some (tiledWin (some (1, 5))))) (.ok (some outGeom)) okReply) =
      ([], Except.error "cannot consume a window in the first column into left") :=
  consumeIntoLeft_first_workspace_fails
    (mkEnv (.ok (some (tiledWin (some (1, 5))))) (.ok (some outGeom)) okReply)
    (tiledWin (some (1, 5))) 5 rfl rfl rfl

/-! ### C6 -/

/-- C6: for every floating focused window, consume-into-left fails
immediately with "cannot consume a floating window" and sends no action. -/
theorem consumeIntoLeft_floating_fails
    (env : Env) (window : Window)
    (hw : env.focusedWindow = .ok (some window))
    (hfl : window.is_floating = true) :
    consumeIntoLeft env = ([], Except.error "cannot consume a floating window") := by
  have hplan : consumeActions window = .error "cannot consume a floating window" := by
    rw [consumeActions, hfl]
    simp
  simp [consumeIntoLeft, hw, hplan]

/-- C6 witness. -/
theorem consumeIntoLeft_floating_fails_witness :
    consumeIntoLeft (mkEnv (.ok (some floatWin)) (.ok (some outGeom)) okReply) =
      ([], Except.error "cannot consume a floating window") :=
  consumeIntoLeft_floating_fails
    (mkEnv (.ok (some floatWin)) (.ok (some outGeom)) okReply) floatWin rfl rfl

/-! ### C7 -/

/-- C7: for every non-floating focused window, toggle-follow-mode never
invokes the external delegate process and the command exits successfully,
whatever spawning the delegate would have returned. -/
theorem toggleFollowMode_nonfloating_noop
    (env : Env) (window : Window)
    (hw : env.focusedWindow = .ok (some window))
    (hfl : window.is_floating = false) :
    toggleFollowMode env = ([], Except.ok ()) := by
  simp [toggleFollowMode, hw, hfl]

/-- C7 witness. -/
theorem toggleFollowMode_nonfloating_noop_witness :
    toggleFollowMode (mkEnv (.ok (some (tiledWin none))) (.ok (some outGeom)) okReply) =
      ([], Except.ok ()) :=
  toggleFollowMode_nonfloating_noop
    (mkEnv (.ok (some (tiledWin none))) (.ok (some outGeom)) okReply)
    (tiledWin none) rfl rfl

end Myniri
